import Mathlib

/-!
Verification of the w3bP0ng game engine specification.

This file gives a shallow embedding, in Lean 4, of the parts of the
w3bP0ng Pong-style game that the specification talks about:

* the pure physics helpers (`applySpeedLimits`, `predictBallY`) from
  `src/engine/PhysicsEngine.ts`,
* the AI controller (`getAIConfig`, `updateAIPaddle`,
  `predictBallPosition`) from `src/ai/AIController.ts`,
* the collision detector (`checkCircleRectCollision`,
  `checkCircleCircleCollision`) from `src/engine/CollisionDetector.ts`,
* the power-up manager (`updatePowerUpAnimation`, `shouldSpawnPowerUp`,
  `getPowerUpOwner`) from `src/engine/PowerUpManager.ts`,
* the game orchestrator (`useGameLogic`: `resetGame`, `activatePowerUp`
  and the per-frame `updateGame`) from `src/hooks/useGameLogic.js`.

JavaScript numbers are modelled as exact numbers: as rationals (`ℚ`)
wherever the code uses only field operations and comparisons, and as
reals (`ℝ`) where `Math.sqrt` appears.  JavaScript division by zero
(which produces `Infinity`/`NaN`) is modelled by Lean's `x / 0 = 0`
convention; every theorem below that touches a division either
short-circuits before the division, exactly as the code does, or
explicitly exhibits the zero-denominator case as a counterexample.
`Math.random()` draws, `Date.now()` reads and key presses are modelled
as explicit oracle inputs, and `Math.cos`/`Math.sin` (which only move a
power-up around its base point) are abstract function parameters.
-/

namespace W3bP0ng

/-- Owning side of a paddle / power-up ('left' | 'right' in the code). -/
inductive Side where
  | left : Side
  | right : Side
deriving DecidableEq, Repr

/-- Trail particle (`Particle` in `src/engine/types.ts`). -/
structure ParticleQ where
  x : ℚ
  y : ℚ
  size : ℚ
  life : ℚ
deriving DecidableEq, Repr

/-- Ball record (`Ball` in `src/engine/types.ts`), rational model. -/
structure BallQ where
  x : ℚ
  y : ℚ
  dx : ℚ
  dy : ℚ
  radius : ℚ
  trail : List ParticleQ
deriving DecidableEq, Repr

/-- Paddle record (`Paddle` in `src/engine/types.ts`), rational model. -/
structure PaddleQ where
  x : ℚ
  y : ℚ
  width : ℚ
  height : ℚ
  speed : ℚ
  prevY : ℚ
  velocity : ℚ
deriving DecidableEq, Repr

/-! ## Power-up manager (`src/engine/PowerUpManager.ts`) -/

/-- Power-up kind (`PowerUpType` in `PowerUpManager.ts`). -/
inductive PowerUpType where
  | bigPaddle : PowerUpType
  | fastBall : PowerUpType
  | multiBall : PowerUpType
  | shield : PowerUpType
deriving DecidableEq, Repr

/-- Floating power-up (`PowerUp` in `PowerUpManager.ts`).  The
render-only `color`/`symbol` string fields are omitted; every numeric
field the update logic reads or writes is present.  Times (`spawnTime`
and the `currentTime` arguments below) are in milliseconds, as
delivered by `Date.now()`. -/
structure PowerUpQ where
  id : ℤ
  type : PowerUpType
  x : ℚ
  y : ℚ
  baseX : ℚ
  baseY : ℚ
  rotation : ℚ
  floatOffset : ℚ
  floatSpeed : ℚ
  floatRadius : ℚ
  maxFloatRadius : ℚ
  spawnTime : ℚ
deriving DecidableEq, Repr

/-- Embedding of `PowerUpManager.updatePowerUpAnimation`.  `cosQ` and
`sinQ` stand for `Math.cos` and `Math.sin` (they only influence the
floating position `x`/`y`, not the radius).  `currentTime` is the
`Date.now()` argument in milliseconds. -/
def updatePowerUpAnimation (cosQ sinQ : ℚ → ℚ) (powerUp : PowerUpQ)
    (canvasWidth canvasHeight currentTime : ℚ) : PowerUpQ :=
  let newRotation := powerUp.rotation + 5/100
  let newFloatOffset := powerUp.floatOffset + powerUp.floatSpeed
  let timeElapsedSeconds := (currentTime - powerUp.spawnTime) / 1000
  let growthFactor := 1 + timeElapsedSeconds / 10
  let newFloatRadius := min (powerUp.maxFloatRadius * growthFactor) 80
  let floatX := cosQ newFloatOffset * newFloatRadius
  let floatY := sinQ (newFloatOffset * (7/10)) * newFloatRadius * (6/10)
  let nX := powerUp.baseX + floatX
  let nY := powerUp.baseY + floatY
  let margin := 30 + newFloatRadius
  let newX := max margin (min (canvasWidth - margin) nX)
  let newY := max margin (min (canvasHeight - margin) nY)
  let newBaseX := if newX = margin ∨ newX = canvasWidth - margin then newX else powerUp.baseX
  let newBaseY := if newY = margin ∨ newY = canvasHeight - margin then newY else powerUp.baseY
  { powerUp with
      x := newX
      y := newY
      baseX := newBaseX
      baseY := newBaseY
      rotation := newRotation
      floatOffset := newFloatOffset
      floatRadius := newFloatRadius }

/-- Embedding of `PowerUpManager.shouldSpawnPowerUp`. -/
def shouldSpawnPowerUp (spawnTimer : ℚ) (currentPowerUpCount : ℕ) : Bool :=
  decide (spawnTimer ≤ 0) && decide (currentPowerUpCount = 0)

/-- Embedding of `PowerUpManager.getPowerUpOwner`: the side that owns a
picked-up power-up is decided by the ball's horizontal direction. -/
def getPowerUpOwner (ball : BallQ) : Side :=
  if 0 < ball.dx then Side.right else Side.left

/-! ## AI controller (`src/ai/AIController.ts`) -/

/-- Difficulty tier (`AIDifficulty`). -/
inductive AIDifficulty where
  | easy : AIDifficulty
  | medium : AIDifficulty
  | hard : AIDifficulty
deriving DecidableEq, Repr

/-- AI tuning record (`AIConfig`). -/
structure AIConfig where
  speed : ℚ
  reactionTime : ℚ
  accuracy : ℚ
  predictionEnabled : Bool
deriving DecidableEq, Repr

/-- Embedding of `AIController.getAIConfig`.  The TypeScript `default`
switch branch (returning the medium config) is unreachable here because
`AIDifficulty` has exactly the three listed constructors. -/
def getAIConfig : AIDifficulty → AIConfig
  | AIDifficulty.easy =>
      { speed := 55/10, reactionTime := 12, accuracy := 8/10, predictionEnabled := false }
  | AIDifficulty.medium =>
      { speed := 65/10, reactionTime := 6, accuracy := 9/10, predictionEnabled := true }
  | AIDifficulty.hard =>
      { speed := 75/10, reactionTime := 2, accuracy := 98/100, predictionEnabled := true }

/-- Embedding of `AIController.updateAIPaddle`: one frame of AI paddle
movement towards `targetY`, with a dead zone of half-width 2 around the
paddle center. -/
def updateAIPaddle (paddle : PaddleQ) (targetY canvasHeight : ℚ)
    (config : AIConfig) : ℚ :=
  let paddleCenter := paddle.y + paddle.height / 2
  let difference := targetY - paddleCenter
  if |difference| < 2 then
    paddle.y
  else if difference < 0 then
    max 0 (paddle.y - config.speed)
  else
    min (canvasHeight - paddle.height) (paddle.y + config.speed)

/-! ## Ball prediction (`PhysicsEngine.predictBallY`,
`AIController.predictBallPosition`)

Both functions share the same body: a short-circuit for `dx = 0`
followed by a `while` loop that folds the linearly extrapolated `y`
back into the canvas by reflecting it across `0` and `canvasHeight`.
The loop is embedded as the well-founded recursion `reflectY`; its
totality (for a positive canvas height, the only way the game calls
it) is exactly the termination of the source loop, with at most
`2 * ceil (|y| / H) + 1` reflections. -/

/-- Loop body and loop of the wall-reflection unfolding in
`predictBallY` / `predictBallPosition`: while `y` is outside
`[0, H]`, reflect it across the violated edge.  For a non-positive
canvas height `H` (never the case in the game, and excluded by every
theorem below) the function returns `y` unchanged instead of looping
forever. -/
def reflectY (H y : ℚ) : ℚ :=
  if h : 0 < H then
    if hneg : y < 0 then reflectY H (-y)
    else if hover : H < y then reflectY H (2 * H - y)
    else y
  else y
termination_by 2 * (Int.toNat ⌈|y| / H⌉) + (if y < 0 then 1 else 0)
decreasing_by
  · have hflag : ¬ (-y < 0) := not_lt.mpr (le_of_lt (neg_pos.mpr hneg))
    simp only [abs_neg, if_neg hflag, if_pos hneg]
    omega
  · have hy0 : (0:ℚ) ≤ y := not_lt.mp hneg
    have hyabs : |y| = y := abs_of_nonneg hy0
    have hc2 : (1:ℤ) < ⌈y / H⌉ :=
      Int.lt_ceil.mpr (by exact_mod_cast (one_lt_div h).mpr hover)
    rcases le_or_lt y (2 * H) with hle | hgt
    · have habs : |2 * H - y| = 2 * H - y := abs_of_nonneg (by linarith)
      have hlt1 : (2 * H - y) / H < 1 := (div_lt_one h).mpr (by linarith)
      have hc1 : ⌈(2 * H - y) / H⌉ ≤ 1 := Int.ceil_le.mpr (by exact_mod_cast hlt1.le)
      have hflag : ¬ (2 * H - y < 0) := not_lt.mpr (by linarith)
      simp only [habs, hyabs, if_neg hflag, if_neg hneg]
      omega
    · have habs : |2 * H - y| = y - 2 * H := by
        rw [abs_sub_comm]; exact abs_of_nonneg (by linarith)
      have hdiv : (y - 2 * H) / H = y / H - ((2:ℤ):ℚ) := by
        push_cast; field_simp; ring
      have hceil : ⌈(y - 2 * H) / H⌉ = ⌈y / H⌉ - 2 := by
        rw [hdiv, Int.ceil_sub_int]
      have hc3 : (2:ℤ) < ⌈y / H⌉ :=
        Int.lt_ceil.mpr (by exact_mod_cast (lt_div_iff₀ h).mpr (by linarith))
      have hflag : 2 * H - y < 0 := by linarith
      simp only [habs, hyabs, if_pos hflag, if_neg hneg, hceil]
      omega

/-- Folding a value into the canvas really lands in `[0, H]`: the loop
in `predictBallY` terminates with an in-range result. -/
theorem reflectY_mem (H : ℚ) (h : 0 < H) (y : ℚ) :
    0 ≤ reflectY H y ∧ reflectY H y ≤ H := by
  induction y using reflectY.induct H with
  | case1 x hH hneg ih =>
      rw [reflectY, dif_pos hH, dif_pos hneg]; exact ih
  | case2 x hH hneg hover ih =>
      rw [reflectY, dif_pos hH, dif_neg hneg, dif_pos hover]; exact ih
  | case3 x hH hneg hover =>
      rw [reflectY, dif_pos hH, dif_neg hneg, dif_neg hover]
      exact ⟨not_lt.mp hneg, not_lt.mp hover⟩
  | case4 x h0 => exact absurd h h0

/-- Embedding of `PhysicsEngine.predictBallY`: predict the ball's `y`
when it reaches `targetX`, short-circuiting to the current `y` when the
horizontal velocity is zero (instead of dividing by zero) and folding
wall bounces via `reflectY`. -/
def predictBallY (ball : BallQ) (targetX canvasHeight : ℚ) : ℚ :=
  if ball.dx = 0 then ball.y
  else
    let timeToReach := (targetX - ball.x) / ball.dx
    reflectY canvasHeight (ball.y + ball.dy * timeToReach)

/-- Embedding of `AIController.predictBallPosition`, whose body is
identical to `PhysicsEngine.predictBallY`. -/
def predictBallPosition (ball : BallQ) (targetX canvasHeight : ℚ) : ℚ :=
  if ball.dx = 0 then ball.y
  else
    let timeToReach := (targetX - ball.x) / ball.dx
    reflectY canvasHeight (ball.y + ball.dy * timeToReach)

/-! ## Game orchestrator (`src/hooks/useGameLogic.js`)

The orchestrator keeps its state in a mutable `gameStateRef`.  We embed
the slice of that state which the power-up claims are about: the
floating power-up list, the spawn timer, the four active-effect slots,
the winner flag and the primary ball.  Paddle and ball kinematics,
rally/XP bookkeeping, sounds and screen shake touch none of these
fields except through the pickup test (whose geometric outcome is
supplied by the per-tick oracle) and the scoring/winner update (whose
outcome the oracle supplies as well); they are therefore abstracted by
oracle choices, which over-approximates the set of reachable states. -/

/-- Slot for the big-paddle effect (`activePowerUps.bigPaddle`). -/
structure BigPaddleSlot where
  active : Bool
  timeLeft : ℚ
  player : Option Side
deriving DecidableEq, Repr

/-- Slot for the fast-ball effect (`activePowerUps.fastBall`). -/
structure FastBallSlot where
  active : Bool
  timeLeft : ℚ
deriving DecidableEq, Repr

/-- Slot for the multi-ball effect (`activePowerUps.multiBall`). -/
structure MultiBallSlot where
  active : Bool
  timeLeft : ℚ
  extraBalls : List BallQ
deriving DecidableEq, Repr

/-- Slot for the shield effect (`activePowerUps.shield`). -/
structure ShieldSlot where
  active : Bool
  uses : ℚ
  player : Option Side
deriving DecidableEq, Repr

/-- The four active-effect slots (`gameState.activePowerUps`). -/
structure ActivePowerUps where
  bigPaddle : BigPaddleSlot
  fastBall : FastBallSlot
  multiBall : MultiBallSlot
  shield : ShieldSlot
deriving DecidableEq, Repr

/-- The power-up-relevant slice of `gameStateRef.current`. -/
structure GameState where
  powerUps : List PowerUpQ
  powerUpSpawnTimer : ℚ
  activePowerUps : ActivePowerUps
  gameWinner : Option Side
  ball : BallQ
deriving DecidableEq, Repr

/-- Value `resetGame` assigns to `gameState.activePowerUps`. -/
def initialActivePowerUps : ActivePowerUps :=
  { bigPaddle := { active := false, timeLeft := 0, player := none }
    fastBall := { active := false, timeLeft := 0 }
    multiBall := { active := false, timeLeft := 0, extraBalls := [] }
    shield := { active := false, uses := 0, player := none } }

/-- Embedding of `useGameLogic.resetBall`: recenter the ball and give it
a horizontal speed of `±6` and a randomized vertical speed, keeping the
radius and the trail.  `rDir` and `rDy` stand for the two
`Math.random()` draws. -/
def resetBallGL (canvasWidth canvasHeight : ℚ) (rDir : Bool) (rDy : ℚ)
    (ball : BallQ) : BallQ :=
  { ball with
      x := canvasWidth / 2
      y := canvasHeight / 2
      dx := if rDir then 6 else -6
      dy := (rDy * 6 - 3) * (8/10) }

/-- Embedding of `useGameLogic.resetGame`, restricted to the modelled
fields: clear the winner and the floating power-ups, reset the spawn
timer to 180 frames, clear all four effect slots and reset the ball.
(Score and session bookkeeping are outside the modelled slice.) -/
def resetGame (canvasWidth canvasHeight : ℚ) (rDir : Bool) (rDy : ℚ)
    (st : GameState) : GameState :=
  { st with
      gameWinner := none
      powerUps := []
      powerUpSpawnTimer := 180
      activePowerUps := initialActivePowerUps
      ball := resetBallGL canvasWidth canvasHeight rDir rDy st.ball }

/-- Rule by which `updateGame` assigns the owning side on pickup
(line `const player = ball.dx > 0 ? 'right' : 'left'`). -/
def pickupOwner (ball : BallQ) : Side :=
  if 0 < ball.dx then Side.right else Side.left

/-- Embedding of `useGameLogic.activatePowerUp`: update the effect slot
selected by the power-up's type (multi-ball only when not already
active), remove the picked-up power-up from the floating list by id,
and redraw the spawn timer.  `r1 … r4` are the `Math.random()` draws
for the two extra balls' velocities and `rTimer` the draw for the new
spawn timer. -/
def activatePowerUp (st : GameState) (powerUp : PowerUpQ)
    (player : Option Side) (r1 r2 r3 r4 rTimer : ℚ) : GameState :=
  let aps := st.activePowerUps
  let aps :=
    match powerUp.type with
    | PowerUpType.bigPaddle =>
        { aps with bigPaddle := { active := true, timeLeft := 480, player := player } }
    | PowerUpType.fastBall =>
        { aps with fastBall := { active := true, timeLeft := 360 } }
    | PowerUpType.multiBall =>
        if aps.multiBall.active then aps
        else
          { aps with multiBall :=
              { active := true
                timeLeft := 600
                extraBalls :=
                  [ { x := st.ball.x + 50, y := st.ball.y
                      dx := -st.ball.dx + (r1 - 1/2) * 2
                      dy := st.ball.dy + (r2 - 1/2) * 2
                      radius := 6, trail := [] }
                  , { x := st.ball.x - 50, y := st.ball.y
                      dx := -st.ball.dx + (r3 - 1/2) * 2
                      dy := st.ball.dy + (r4 - 1/2) * 2
                      radius := 6, trail := [] } ] } }
    | PowerUpType.shield =>
        { aps with shield := { active := true, uses := 1, player := player } }
  { st with
      activePowerUps := aps
      powerUps := st.powerUps.filter (fun p => p.id != powerUp.id)
      powerUpSpawnTimer := (2 + rTimer * 8) * 60 }

/-- Embedding of the active-effect countdown in `updateGame` (the
`Object.keys(gameState.activePowerUps).forEach` loop): every active
slot with a defined `timeLeft` counts down and deactivates at zero;
multi-ball additionally drops its extra balls; the shield slot has no
`timeLeft` and is skipped. -/
def tickActiveSlots (aps : ActivePowerUps) : ActivePowerUps :=
  let bp :=
    if aps.bigPaddle.active then
      let t := aps.bigPaddle.timeLeft - 1
      if t ≤ 0 then { aps.bigPaddle with active := false, timeLeft := t }
      else { aps.bigPaddle with timeLeft := t }
    else aps.bigPaddle
  let fb :=
    if aps.fastBall.active then
      let t := aps.fastBall.timeLeft - 1
      if t ≤ 0 then { aps.fastBall with active := false, timeLeft := t }
      else { aps.fastBall with timeLeft := t }
    else aps.fastBall
  let mb :=
    if aps.multiBall.active then
      let t := aps.multiBall.timeLeft - 1
      if t ≤ 0 then { active := false, timeLeft := t, extraBalls := [] }
      else { aps.multiBall with timeLeft := t }
    else aps.multiBall
  { aps with bigPaddle := bp, fastBall := fb, multiBall := mb }

/-- Oracle for one `updateGame` tick: all `Math.random()` draws,
`Date.now()` reads, key presses and abstracted geometric outcomes the
tick consumes. -/
structure TickOracle where
  rPressed : Bool
  currentTime : ℚ
  spawned : PowerUpQ
  pickup : Option ℕ
  rExtra1 : ℚ
  rExtra2 : ℚ
  rExtra3 : ℚ
  rExtra4 : ℚ
  rTimer : ℚ
  rDir : Bool
  rDy : ℚ
  declaredWinner : Option Side

/-- Spawn-scheduler lines of `updateGame`: decrement the spawn timer,
then push one freshly spawned power-up when the timer has expired and
the field is empty (`powerUpSpawnTimer <= 0 && powerUps.length === 0`,
which is `shouldSpawnPowerUp` applied to the decremented timer). -/
def tickSpawnPhase (o : TickOracle) (st : GameState) : GameState :=
  let timer1 := st.powerUpSpawnTimer - 1
  if timer1 ≤ 0 ∧ st.powerUps.length = 0 then
    { st with powerUpSpawnTimer := timer1, powerUps := st.powerUps ++ [o.spawned] }
  else
    { st with powerUpSpawnTimer := timer1 }

/-- Animation lines of `updateGame`: the inline
`gameState.powerUps.forEach` performs, element by element, the same
arithmetic as `PowerUpManager.updatePowerUpAnimation`. -/
def tickAnimatePhase (cosQ sinQ : ℚ → ℚ) (canvasWidth canvasHeight : ℚ)
    (o : TickOracle) (st : GameState) : GameState :=
  { st with
      powerUps := st.powerUps.map (fun p =>
        updatePowerUpAnimation cosQ sinQ p canvasWidth canvasHeight o.currentTime) }

/-- Pickup lines of `updateGame`: scan the floating power-ups for the
first one the ball overlaps and activate it for the side given by the
ball's direction.  The oracle supplies the index of the first power-up
whose distance test passed (or `none`), abstracting the ball geometry. -/
def tickPickupPhase (o : TickOracle) (st : GameState) : GameState :=
  match o.pickup with
  | some i =>
      if hi : i < st.powerUps.length then
        activatePowerUp st (st.powerUps.get ⟨i, hi⟩)
          (some (pickupOwner st.ball))
          o.rExtra1 o.rExtra2 o.rExtra3 o.rExtra4 o.rTimer
      else st
  | none => st

/-- Scoring/winner lines of `updateGame`: the winner may become set at
the end of a tick; the deciding scores are outside the modelled slice,
so the outcome is an oracle choice.  The power-up list, timer and
slots are untouched. -/
def tickWinnerPhase (o : TickOracle) (st : GameState) : GameState :=
  match o.declaredWinner with
  | some w => { st with gameWinner := some w }
  | none => st

/-- Embedding of one `useGameLogic.updateGame` call, projected to the
modelled state slice and in source order: the `R`-key reset, the
early return when a winner exists, then the spawn, animation,
active-slot countdown, pickup and winner phases. -/
def tick (cosQ sinQ : ℚ → ℚ) (canvasWidth canvasHeight : ℚ)
    (o : TickOracle) (st : GameState) : GameState :=
  let st :=
    if o.rPressed then resetGame canvasWidth canvasHeight o.rDir o.rDy st else st
  if st.gameWinner.isSome then st
  else
    tickWinnerPhase o
      (tickPickupPhase o
        ({ tickAnimatePhase cosQ sinQ canvasWidth canvasHeight o
             (tickSpawnPhase o st) with
           activePowerUps := tickActiveSlots st.activePowerUps }))

/-- One orchestrator step under some oracle. -/
def tickStep (cosQ sinQ : ℚ → ℚ) (canvasWidth canvasHeight : ℚ)
    (s t : GameState) : Prop :=
  ∃ o : TickOracle, t = tick cosQ sinQ canvasWidth canvasHeight o s

/-! ## Physics over the reals

`Math.sqrt` appears in `calculateBallSpeed`, in the orchestrator's
paddle-bounce blocks and in the collision detector, so these functions
are embedded over `ℝ` (in a `noncomputable section`; the comparisons in
the `if`s use the classical order on `ℝ`). -/

noncomputable section

/-- Ball record over `ℝ` (the render-only `trail` field, which the
physics functions never read, is omitted). -/
structure BallR where
  x : ℝ
  y : ℝ
  dx : ℝ
  dy : ℝ
  radius : ℝ

/-- Paddle record over `ℝ`. -/
structure PaddleR where
  x : ℝ
  y : ℝ
  width : ℝ
  height : ℝ
  speed : ℝ
  prevY : ℝ
  velocity : ℝ

/-- Physics tuning record (`PhysicsConfig` in `src/engine/types.ts`). -/
structure PhysicsConfig where
  ballSpeedMultiplier : ℝ
  maxBallSpeed : ℝ
  minBallSpeed : ℝ
  paddleInfluence : ℝ
  bounceAngleFactor : ℝ
  chaosChance : ℝ
  chaosIntensity : ℝ

/-- Embedding of `DEFAULT_PHYSICS_CONFIG` from `src/engine/types.ts`. -/
def DEFAULT_PHYSICS_CONFIG : PhysicsConfig :=
  { ballSpeedMultiplier := 11/10
    maxBallSpeed := 15
    minBallSpeed := 4
    paddleInfluence := 4/10
    bounceAngleFactor := 35/10
    chaosChance := 25/100
    chaosIntensity := 6 }

/-- Speed magnitude of a velocity vector, `sqrt (dx² + dy²)`. -/
def speedOf (v : ℝ × ℝ) : ℝ :=
  Real.sqrt (v.1 * v.1 + v.2 * v.2)

/-- Embedding of `PhysicsEngine.calculateBallSpeed`. -/
def calculateBallSpeed (ball : BallR) : ℝ :=
  Real.sqrt (ball.dx * ball.dx + ball.dy * ball.dy)

/-- Embedding of `PhysicsEngine.applySpeedLimits`: scale the velocity
up to the minimum speed when too slow, down to the maximum when too
fast, and return it unchanged otherwise.  When the current speed is
zero the code divides by zero (`Infinity` multiplier, `NaN`
components in JavaScript); under the real model the `x / 0 = 0`
convention makes the result `(0, 0)`.  Either way the result's
magnitude is not the configured minimum, which theorem
`C2_counterexample` below records. -/
def applySpeedLimits (ball : BallR) (config : PhysicsConfig) : ℝ × ℝ :=
  let currentSpeed := calculateBallSpeed ball
  if currentSpeed < config.minBallSpeed then
    let speedMultiplier := config.minBallSpeed / currentSpeed
    (ball.dx * speedMultiplier, ball.dy * speedMultiplier)
  else if config.maxBallSpeed < currentSpeed then
    let speedMultiplier := config.maxBallSpeed / currentSpeed
    (ball.dx * speedMultiplier, ball.dy * speedMultiplier)
  else
    (ball.dx, ball.dy)

/-- Trailing minimum-speed lines of both paddle-bounce blocks of
`useGameLogic.updateGame` (`if (currentSpeed < 4) { ... }`): rescale
the velocity up to magnitude 4 when it fell below 4. -/
def minSpeedFloorGL (dx dy : ℝ) : ℝ × ℝ :=
  let currentSpeed := Real.sqrt (dx * dx + dy * dy)
  if currentSpeed < 4 then
    let speedMultiplier := 4 / currentSpeed
    (dx * speedMultiplier, dy * speedMultiplier)
  else
    (dx, dy)

/-- Embedding of the left-paddle bounce block of
`useGameLogic.updateGame` (the `ball.dx < 0 && checkPaddleCollision`
branch), restricted to the ball fields it writes: reverse and
accelerate the horizontal velocity, reposition flush against the
paddle face, accelerate and deflect the vertical velocity (paddle
momentum, hit position), clamp `dy` to `[-15, 15]`, optionally add the
chaos nudge (`chaosHit` models `Math.random() < 0.25` and `chaosR` the
second draw), and finally rescale the velocity up to the minimum speed
4 via `minSpeedFloorGL`.  Rally/XP/achievement bookkeeping, sound and
screen shake do not touch the ball and are omitted. -/
def resolvePaddleBounceLeft (ball : BallR) (paddle : PaddleR)
    (chaosHit : Bool) (chaosR : ℝ) : BallR :=
  let dx1 := -ball.dx * (11/10)
  let x1 := paddle.x + paddle.width + ball.radius
  let dy1 := ball.dy * (11/10)
  let dy2 := dy1 + paddle.velocity * (4/10)
  let hitPosition := (ball.y - (paddle.y + paddle.height / 2)) / (paddle.height / 2)
  let dy3 := dy2 + hitPosition * (35/10)
  let dy4 := max (-15) (min 15 dy3)
  let dy5 := if chaosHit then dy4 + (chaosR - 1/2) * 6 else dy4
  let v := minSpeedFloorGL dx1 dy5
  { ball with x := x1, dx := v.1, dy := v.2 }

/-- Embedding of the right-paddle bounce block of
`useGameLogic.updateGame` (the `ball.dx > 0 && checkPaddleCollision`
branch); identical to the left block except for the reposition face. -/
def resolvePaddleBounceRight (ball : BallR) (paddle : PaddleR)
    (chaosHit : Bool) (chaosR : ℝ) : BallR :=
  let dx1 := -ball.dx * (11/10)
  let x1 := paddle.x - ball.radius
  let dy1 := ball.dy * (11/10)
  let dy2 := dy1 + paddle.velocity * (4/10)
  let hitPosition := (ball.y - (paddle.y + paddle.height / 2)) / (paddle.height / 2)
  let dy3 := dy2 + hitPosition * (35/10)
  let dy4 := max (-15) (min 15 dy3)
  let dy5 := if chaosHit then dy4 + (chaosR - 1/2) * 6 else dy4
  let v := minSpeedFloorGL dx1 dy5
  { ball with x := x1, dx := v.1, dy := v.2 }

/-! ## Collision detector (`src/engine/CollisionDetector.ts`) -/

/-- Circle (`Circle` in `CollisionDetector.ts`). -/
structure CircleR where
  x : ℝ
  y : ℝ
  radius : ℝ

/-- Axis-aligned rectangle (`Rectangle` in `CollisionDetector.ts`). -/
structure RectangleR where
  x : ℝ
  y : ℝ
  width : ℝ
  height : ℝ

/-- Collision result (`CollisionInfo` in `CollisionDetector.ts`); the
optional fields are `none` exactly when the TypeScript result omits
them. -/
structure CollisionInfoR where
  collided : Bool
  penetrationDepth : Option ℝ
  normal : Option (ℝ × ℝ)
  contactPoint : Option (ℝ × ℝ)

/-- Embedding of `CollisionDetector.checkCircleRectCollision`:
closest-point test; on collision the normal is the normalized
center-to-closest-point offset, or — when the center lies exactly on
the rectangle (zero distance) — the horizontal default pointing away
from the rectangle's mid-x. -/
def checkCircleRectCollision (circle : CircleR) (rect : RectangleR) :
    CollisionInfoR :=
  let closestX := max rect.x (min circle.x (rect.x + rect.width))
  let closestY := max rect.y (min circle.y (rect.y + rect.height))
  let distanceX := circle.x - closestX
  let distanceY := circle.y - closestY
  let distanceSquared := distanceX * distanceX + distanceY * distanceY
  if distanceSquared ≤ circle.radius * circle.radius then
    let distance := Real.sqrt distanceSquared
    let penetrationDepth := circle.radius - distance
    let normal : ℝ × ℝ :=
      if 0 < distance then (distanceX / distance, distanceY / distance)
      else (if circle.x < rect.x + rect.width / 2 then -1 else 1, 0)
    { collided := true
      penetrationDepth := some penetrationDepth
      normal := some normal
      contactPoint := some (closestX, closestY) }
  else
    { collided := false, penetrationDepth := none, normal := none, contactPoint := none }

/-- Embedding of `CollisionDetector.checkCircleCircleCollision`: on
collision the normal points from the first circle to the second, or
defaults to `(1, 0)` when the centers coincide. -/
def checkCircleCircleCollision (circle1 circle2 : CircleR) : CollisionInfoR :=
  let dx := circle2.x - circle1.x
  let dy := circle2.y - circle1.y
  let distance := Real.sqrt (dx * dx + dy * dy)
  let combinedRadius := circle1.radius + circle2.radius
  if distance < combinedRadius then
    let penetrationDepth := combinedRadius - distance
    let normal : ℝ × ℝ :=
      if 0 < distance then (dx / distance, dy / distance) else (1, 0)
    { collided := true
      penetrationDepth := some penetrationDepth
      normal := some normal
      contactPoint := none }
  else
    { collided := false, penetrationDepth := none, normal := none, contactPoint := none }

end

/-! ## Concrete sample data used by witnesses and counterexamples -/

/-- Ball travelling exactly vertically (`dx = 0`). -/
def ballDxZero : BallQ :=
  { x := 400, y := 120, dx := 0, dy := 3, radius := 8, trail := [] }

/-- Ball drifting to the right. -/
def ballRightward : BallQ :=
  { x := 200, y := 90, dx := 2, dy := -3, radius := 8, trail := [] }

/-- A floating multi-ball power-up. -/
def multiBallPickup : PowerUpQ :=
  { id := 42, type := PowerUpType.multiBall, x := 400, y := 300
    baseX := 400, baseY := 300, rotation := 0, floatOffset := 0
    floatSpeed := 1/50, floatRadius := 25, maxFloatRadius := 25, spawnTime := 1000 }

/-- A game state in which the multi-ball effect is already active and
`multiBallPickup` is floating on the field. -/
def multiBallActiveState : GameState :=
  { powerUps := [multiBallPickup]
    powerUpSpawnTimer := 37
    activePowerUps :=
      { initialActivePowerUps with
          multiBall :=
            { active := true, timeLeft := 250
              extraBalls := [ballRightward, ballDxZero] } }
    gameWinner := none
    ball := ballRightward }

/-- AI paddle at `y = 100` (center 150 for height 100). -/
def aiPaddleLow : PaddleQ :=
  { x := 760, y := 100, width := 15, height := 100, speed := 8, prevY := 100, velocity := 0 }

/-- The same paddle one AI step later, at `y = 107.5`. -/
def aiPaddleHigh : PaddleQ :=
  { aiPaddleLow with y := 215/2 }

/-! ## Claim theorems -/

/-- Claim C9: `getPowerUpOwner` returns `right` exactly when the
ball's horizontal velocity is positive and `left` otherwise — in
particular `left` when `dx = 0` — and the inline owner assignment in
`updateGame`'s pickup step (`pickupOwner`) follows the same rule. -/
theorem C9_powerUpOwner (ball : BallQ) :
    (getPowerUpOwner ball = Side.right ↔ 0 < ball.dx)
    ∧ (ball.dx = 0 → getPowerUpOwner ball = Side.left)
    ∧ pickupOwner ball = getPowerUpOwner ball := by
  refine ⟨?_, ?_, rfl⟩
  · by_cases h : 0 < ball.dx <;> simp [getPowerUpOwner, h]
  · intro h
    simp [getPowerUpOwner, h]

/-- Witness for C9 at a concrete ball with `dx = 0`. -/
theorem C9_powerUpOwner_witness :
    getPowerUpOwner ballDxZero = Side.left
    ∧ pickupOwner ballDxZero = getPowerUpOwner ballDxZero :=
  ⟨(C9_powerUpOwner ballDxZero).2.1 rfl, (C9_powerUpOwner ballDxZero).2.2⟩

/-- Claim C4 fails on the code: at the `hard` tier (speed 7.5, dead
zone of half-width 2) a paddle whose center sits 2 pixels above the
target moves 7.5 pixels past it, then 7.5 pixels back, entering a
2-cycle that alternately overshoots the target from both sides and
never reaches a fixed point.  This theorem evaluates `updateAIPaddle`
on that failing input: from `y = 100` (center 150, target 152) the
paddle jumps to `y = 107.5` (center 157.5, past the target) and from
there straight back to `y = 100`; neither position is a fixed point,
and the iterated sequence is exactly the 2-cycle
`100, 107.5, 100, 107.5, …`. -/
theorem C4_hard_oscillation_cycle :
    updateAIPaddle aiPaddleLow 152 600 (getAIConfig AIDifficulty.hard) = 215/2
    ∧ updateAIPaddle aiPaddleHigh 152 600 (getAIConfig AIDifficulty.hard) = 100
    ∧ aiPaddleLow.y + aiPaddleLow.height / 2 < 152
    ∧ 152 < aiPaddleHigh.y + aiPaddleHigh.height / 2
    ∧ updateAIPaddle aiPaddleLow 152 600 (getAIConfig AIDifficulty.hard) ≠ aiPaddleLow.y
    ∧ updateAIPaddle aiPaddleHigh 152 600 (getAIConfig AIDifficulty.hard) ≠ aiPaddleHigh.y
    ∧ ∀ n : ℕ,
        (fun y => updateAIPaddle { aiPaddleLow with y := y } 152 600
          (getAIConfig AIDifficulty.hard))^[n] 100
          = if n % 2 = 0 then 100 else 215/2 := by
  have hlow : updateAIPaddle aiPaddleLow 152 600 (getAIConfig AIDifficulty.hard) = 215/2 := by
    norm_num [updateAIPaddle, getAIConfig, aiPaddleLow, abs]
  have hhigh : updateAIPaddle aiPaddleHigh 152 600 (getAIConfig AIDifficulty.hard) = 100 := by
    norm_num [updateAIPaddle, getAIConfig, aiPaddleHigh, aiPaddleLow, abs]
  refine ⟨hlow, hhigh, by norm_num [aiPaddleLow], by norm_num [aiPaddleHigh, aiPaddleLow],
    by rw [hlow]; norm_num [aiPaddleLow], by rw [hhigh]; norm_num [aiPaddleHigh, aiPaddleLow], ?_⟩
  have hstep1 : updateAIPaddle { aiPaddleLow with y := (100:ℚ) } 152 600
      (getAIConfig AIDifficulty.hard) = 215/2 := hlow
  have hstep2 : updateAIPaddle { aiPaddleLow with y := (215/2:ℚ) } 152 600
      (getAIConfig AIDifficulty.hard) = 100 := hhigh
  intro n
  induction n using Nat.twoStepInduction with
  | zero => simp
  | one =>
      simp only [Function.iterate_one]
      rw [hstep1]
      norm_num
  | more n ih _ =>
      rw [Function.iterate_succ_apply, Function.iterate_succ_apply, hstep1, hstep2, ih]
      have hmod : (n + 2) % 2 = n % 2 := by omega
      rw [hmod]

/-- Reduction of the float radius produced by one
`updatePowerUpAnimation` call, together with the invariance of the
fields the radius is computed from. -/
theorem updatePowerUpAnimation_floatRadius (cosQ sinQ : ℚ → ℚ)
    (p : PowerUpQ) (W H t : ℚ) :
    (updatePowerUpAnimation cosQ sinQ p W H t).floatRadius
        = min (p.maxFloatRadius * (1 + (t - p.spawnTime) / 1000 / 10)) 80
    ∧ (updatePowerUpAnimation cosQ sinQ p W H t).spawnTime = p.spawnTime
    ∧ (updatePowerUpAnimation cosQ sinQ p W H t).maxFloatRadius = p.maxFloatRadius := by
  refine ⟨rfl, rfl, rfl⟩

/-- Claim C7, amended: for a power-up whose `maxFloatRadius` is at
least `80/11` (every power-up the spawner creates has it in
`[20, 35]`), the float radius over successive
`updatePowerUpAnimation` calls at non-decreasing times at or after the
spawn time is monotonically non-decreasing, never exceeds the cap 80,
and equals 80 once 100 seconds (100000 ms) have elapsed since spawn.
For an arbitrary power-up record the original claim fails
(`C7_counterexample`). -/
theorem C7_floatRadius_monotone_capped (cosQ sinQ : ℚ → ℚ)
    (p : PowerUpQ) (W H t1 t2 : ℚ)
    (hmax : 80/11 ≤ p.maxFloatRadius)
    (_ht1 : p.spawnTime ≤ t1) (h12 : t1 ≤ t2) :
    (updatePowerUpAnimation cosQ sinQ p W H t1).floatRadius
        ≤ (updatePowerUpAnimation cosQ sinQ
             (updatePowerUpAnimation cosQ sinQ p W H t1) W H t2).floatRadius
    ∧ (updatePowerUpAnimation cosQ sinQ p W H t1).floatRadius ≤ 80
    ∧ (p.spawnTime + 100000 ≤ t1 →
        (updatePowerUpAnimation cosQ sinQ p W H t1).floatRadius = 80) := by
  obtain ⟨hr1, hs1, hm1⟩ := updatePowerUpAnimation_floatRadius cosQ sinQ p W H t1
  obtain ⟨hr2, -, -⟩ := updatePowerUpAnimation_floatRadius cosQ sinQ
    (updatePowerUpAnimation cosQ sinQ p W H t1) W H t2
  have hmax0 : (0:ℚ) ≤ p.maxFloatRadius := le_trans (by norm_num) hmax
  refine ⟨?_, ?_, ?_⟩
  · rw [hr1, hr2, hs1, hm1]
    have hgrow : 1 + (t1 - p.spawnTime) / 1000 / 10 ≤ 1 + (t2 - p.spawnTime) / 1000 / 10 := by
      have hq : (t1 - p.spawnTime) / 1000 / 10 ≤ (t2 - p.spawnTime) / 1000 / 10 := by
        gcongr
      linarith
    exact min_le_min (mul_le_mul_of_nonneg_left hgrow hmax0) le_rfl
  · rw [hr1]; exact min_le_right _ _
  · intro h100
    rw [hr1]
    have hg : (11:ℚ) ≤ 1 + (t1 - p.spawnTime) / 1000 / 10 := by
      have : (100000:ℚ) ≤ t1 - p.spawnTime := by linarith
      have h2 : (10:ℚ) ≤ (t1 - p.spawnTime) / 1000 / 10 := by
        rw [div_div, le_div_iff₀ (by norm_num : (0:ℚ) < 1000 * 10)]
        linarith
      linarith
    have h80 : (80:ℚ) ≤ p.maxFloatRadius * (1 + (t1 - p.spawnTime) / 1000 / 10) := by
      calc (80:ℚ) = (80/11) * 11 := by norm_num
        _ ≤ p.maxFloatRadius * (1 + (t1 - p.spawnTime) / 1000 / 10) :=
            mul_le_mul hmax hg (by norm_num) hmax0
    exact min_eq_right h80

/-- Witness for C7: the spawner-style power-up `multiBallPickup`
(maxFloatRadius 25, spawnTime 1000), animated at 1000 ms and again at
101000 ms (100 s after spawn). -/
theorem C7_floatRadius_witness :
    (updatePowerUpAnimation (fun _ => 1) (fun _ => 0) multiBallPickup 800 600 1000).floatRadius
        ≤ (updatePowerUpAnimation (fun _ => 1) (fun _ => 0)
             (updatePowerUpAnimation (fun _ => 1) (fun _ => 0) multiBallPickup 800 600 1000)
             800 600 101000).floatRadius
    ∧ (updatePowerUpAnimation (fun _ => 1) (fun _ => 0) multiBallPickup 800 600 1000).floatRadius ≤ 80
    ∧ (updatePowerUpAnimation (fun _ => 1) (fun _ => 0) multiBallPickup 800 600 101000).floatRadius = 80 := by
  have h := C7_floatRadius_monotone_capped (fun _ => 1) (fun _ => 0)
    multiBallPickup 800 600 1000 101000 (by norm_num [multiBallPickup])
    (by norm_num [multiBallPickup]) (by norm_num)
  have h2 := C7_floatRadius_monotone_capped (fun _ => 1) (fun _ => 0)
    multiBallPickup 800 600 101000 101000 (by norm_num [multiBallPickup])
    (by norm_num [multiBallPickup]) (by norm_num)
  exact ⟨h.1, h.2.1, h2.2.2 (by norm_num [multiBallPickup])⟩

/-- A degenerate power-up record with `maxFloatRadius = 0`. -/
def degeneratePowerUp : PowerUpQ :=
  { id := 7, type := PowerUpType.shield, x := 400, y := 300
    baseX := 400, baseY := 300, rotation := 0, floatOffset := 0
    floatSpeed := 1/50, floatRadius := 0, maxFloatRadius := 0, spawnTime := 0 }

/-- Counterexample to C7 as stated: for the power-up record with
`maxFloatRadius = 0`, 100 seconds after spawn the float radius is
still 0, not the cap 80.  (The claim quantifies over every power-up;
it only holds for radii the spawner can produce.) -/
theorem C7_counterexample :
    (updatePowerUpAnimation (fun _ => 1) (fun _ => 0) degeneratePowerUp 800 600 100000).floatRadius = 0
    ∧ ((0:ℚ) ≠ 80) := by
  constructor
  · have h := (updatePowerUpAnimation_floatRadius (fun _ => 1) (fun _ => 0)
      degeneratePowerUp 800 600 100000).1
    rw [h]
    norm_num [degeneratePowerUp]
  · norm_num

/-- Claim C5: activating a multi-ball power-up while the multi-ball
effect is already active leaves the `activePowerUps.multiBall` slot —
active flag, remaining duration and extra-ball list — unchanged. -/
theorem C5_multiBall_idempotent (st : GameState) (powerUp : PowerUpQ)
    (player : Option Side) (r1 r2 r3 r4 rTimer : ℚ)
    (hty : powerUp.type = PowerUpType.multiBall)
    (hact : st.activePowerUps.multiBall.active = true) :
    (activatePowerUp st powerUp player r1 r2 r3 r4 rTimer).activePowerUps.multiBall
      = st.activePowerUps.multiBall := by
  simp [activatePowerUp, hty, hact]

/-- Witness for C5: activating `multiBallPickup` on
`multiBallActiveState` (where multi-ball is already active). -/
theorem C5_multiBall_idempotent_witness :
    (activatePowerUp multiBallActiveState multiBallPickup (some Side.right)
        (1/4) (1/3) (1/2) (2/3) (3/4)).activePowerUps.multiBall
      = multiBallActiveState.activePowerUps.multiBall :=
  C5_multiBall_idempotent multiBallActiveState multiBallPickup (some Side.right)
    (1/4) (1/3) (1/2) (2/3) (3/4) rfl rfl

/-- Claim C10: even when the multi-ball effect is already active (so
the activation is a no-op on the effect slot), `activatePowerUp` still
consumes the pickup: the picked-up power-up's id is gone from the
floating list, every other floating power-up survives, the spawn timer
is redrawn as `(2 + rTimer * 8) * 60`, and the active multi-ball slot
(extra balls and remaining duration) is untouched. -/
theorem C10_pickup_consumed (st : GameState) (powerUp : PowerUpQ)
    (player : Option Side) (r1 r2 r3 r4 rTimer : ℚ)
    (hty : powerUp.type = PowerUpType.multiBall)
    (hact : st.activePowerUps.multiBall.active = true) :
    (∀ q ∈ (activatePowerUp st powerUp player r1 r2 r3 r4 rTimer).powerUps,
        q.id ≠ powerUp.id)
    ∧ (∀ q ∈ st.powerUps, q.id ≠ powerUp.id →
        q ∈ (activatePowerUp st powerUp player r1 r2 r3 r4 rTimer).powerUps)
    ∧ (activatePowerUp st powerUp player r1 r2 r3 r4 rTimer).powerUpSpawnTimer
        = (2 + rTimer * 8) * 60
    ∧ (activatePowerUp st powerUp player r1 r2 r3 r4 rTimer).activePowerUps.multiBall
        = st.activePowerUps.multiBall := by
  refine ⟨?_, ?_, rfl, ?_⟩
  · intro q hq
    have : q ∈ st.powerUps.filter (fun p => p.id != powerUp.id) := hq
    simpa using (List.mem_filter.mp this).2
  · intro q hq hne
    show q ∈ st.powerUps.filter (fun p => p.id != powerUp.id)
    exact List.mem_filter.mpr ⟨hq, by simpa using hne⟩
  · simp [activatePowerUp, hty, hact]

/-- Witness for C10 on `multiBallActiveState`: the floating
`multiBallPickup` (id 42) is consumed and the timer redrawn while the
active effect is untouched. -/
theorem C10_pickup_consumed_witness :
    (∀ q ∈ (activatePowerUp multiBallActiveState multiBallPickup (some Side.left)
        0 0 0 0 (1/2)).powerUps, q.id ≠ multiBallPickup.id)
    ∧ (activatePowerUp multiBallActiveState multiBallPickup (some Side.left)
        0 0 0 0 (1/2)).powerUpSpawnTimer = (2 + (1/2) * 8) * 60
    ∧ (activatePowerUp multiBallActiveState multiBallPickup (some Side.left)
        0 0 0 0 (1/2)).activePowerUps.multiBall
        = multiBallActiveState.activePowerUps.multiBall := by
  have h := C10_pickup_consumed multiBallActiveState multiBallPickup (some Side.left)
    0 0 0 0 (1/2) rfl rfl
  exact ⟨h.1, h.2.2.1, h.2.2.2⟩

/-- The pickup step never grows the floating power-up list
(`activatePowerUp` filters it). -/
theorem activatePowerUp_length_le (st : GameState) (powerUp : PowerUpQ)
    (player : Option Side) (r1 r2 r3 r4 rTimer : ℚ) :
    (activatePowerUp st powerUp player r1 r2 r3 r4 rTimer).powerUps.length
      ≤ st.powerUps.length := by
  have : (activatePowerUp st powerUp player r1 r2 r3 r4 rTimer).powerUps
      = st.powerUps.filter (fun p => p.id != powerUp.id) := rfl
  rw [this]
  exact List.length_filter_le _ _

/-- The spawn phase preserves the at-most-one bound: it pushes a
power-up only into an empty field. -/
theorem tickSpawnPhase_le_one (o : TickOracle) (s : GameState)
    (hs : s.powerUps.length ≤ 1) :
    (tickSpawnPhase o s).powerUps.length ≤ 1 := by
  unfold tickSpawnPhase
  dsimp only
  split
  · next hcond => simp [hcond.2]
  · exact hs

/-- The pickup phase never grows the floating power-up list. -/
theorem tickPickupPhase_le (o : TickOracle) (s : GameState) :
    (tickPickupPhase o s).powerUps.length ≤ s.powerUps.length := by
  unfold tickPickupPhase
  rcases ho : o.pickup with - | i
  · exact le_rfl
  · dsimp only
    split
    · exact activatePowerUp_length_le _ _ _ _ _ _ _ _
    · exact le_rfl

/-- The winner phase leaves the floating power-up list untouched. -/
theorem tickWinnerPhase_powerUps (o : TickOracle) (s : GameState) :
    (tickWinnerPhase o s).powerUps = s.powerUps := by
  unfold tickWinnerPhase
  rcases ho : o.declaredWinner with - | w <;> rfl

/-- One orchestrator tick preserves the at-most-one-floating-power-up
bound: a spawn happens only into an empty field, the animation pass is
a map, and the pickup phase only filters. -/
theorem tick_powerUps_le_one (cosQ sinQ : ℚ → ℚ) (W H : ℚ)
    (o : TickOracle) (s : GameState)
    (hs : s.powerUps.length ≤ 1) :
    (tick cosQ sinQ W H o s).powerUps.length ≤ 1 := by
  unfold tick
  set s0 := if o.rPressed then resetGame W H o.rDir o.rDy s else s with hs0
  have h0 : s0.powerUps.length ≤ 1 := by
    rw [hs0]
    split
    · simp [resetGame]
    · exact hs
  dsimp only
  split
  · exact h0
  · rw [tickWinnerPhase_powerUps]
    refine le_trans (le_trans (tickPickupPhase_le o _) ?_) (tickSpawnPhase_le_one o s0 h0)
    simp [tickAnimatePhase]

/-- Claim C6: in every state reachable from a reset game by
orchestrator ticks, the floating power-up list holds at most one
element. -/
theorem C6_at_most_one_powerUp (cosQ sinQ : ℚ → ℚ) (W H : ℚ)
    (base : GameState) (rDir : Bool) (rDy : ℚ) (s : GameState)
    (hreach : Relation.ReflTransGen (tickStep cosQ sinQ W H)
      (resetGame W H rDir rDy base) s) :
    s.powerUps.length ≤ 1 := by
  induction hreach with
  | refl => simp [resetGame]
  | tail _ hbc ih =>
      obtain ⟨o, rfl⟩ := hbc
      exact tick_powerUps_le_one cosQ sinQ _ _ o _ ih

/-- Witness for C6: the freshly reset game itself (reachable in zero
steps) satisfies the bound. -/
theorem C6_at_most_one_powerUp_witness :
    (resetGame 800 600 true 0 multiBallActiveState).powerUps.length ≤ 1 :=
  C6_at_most_one_powerUp (fun _ => 1) (fun _ => 0) 800 600
    multiBallActiveState true 0 _ Relation.ReflTransGen.refl

/-- Claim C3: ball prediction is total and safe.  With zero horizontal
velocity both `predictBallY` and `predictBallPosition` short-circuit
to the ball's current `y` (no division is reached); with nonzero
horizontal velocity the wall-reflection loop (total by the
well-founded recursion `reflectY`, with at most
`2⌈|y|/H⌉ + 1` reflections) returns a value inside `[0, canvasHeight]`,
and the two implementations agree. -/
theorem C3_predictBallY_total_in_range (ball : BallQ) (targetX canvasHeight : ℚ)
    (hH : 0 < canvasHeight) :
    (ball.dx = 0 →
        predictBallY ball targetX canvasHeight = ball.y
        ∧ predictBallPosition ball targetX canvasHeight = ball.y)
    ∧ (ball.dx ≠ 0 →
        0 ≤ predictBallY ball targetX canvasHeight
        ∧ predictBallY ball targetX canvasHeight ≤ canvasHeight
        ∧ predictBallPosition ball targetX canvasHeight
            = predictBallY ball targetX canvasHeight) := by
  constructor
  · intro h
    constructor <;> simp [predictBallY, predictBallPosition, h]
  · intro h
    have hm := reflectY_mem canvasHeight hH
      (ball.y + ball.dy * ((targetX - ball.x) / ball.dx))
    refine ⟨?_, ?_, ?_⟩ <;> simp [predictBallY, predictBallPosition, h]
    · exact hm.1
    · exact hm.2

/-- Witness for C3 at a concrete ball and canvas: a vertical ball
returns its own `y`, and a moving ball's prediction lies in the
canvas. -/
theorem C3_predictBallY_witness :
    (predictBallY ballDxZero 780 600 = ballDxZero.y
        ∧ predictBallPosition ballDxZero 780 600 = ballDxZero.y)
    ∧ (0 ≤ predictBallY ballRightward 780 600
        ∧ predictBallY ballRightward 780 600 ≤ 600
        ∧ predictBallPosition ballRightward 780 600
            = predictBallY ballRightward 780 600) :=
  ⟨(C3_predictBallY_total_in_range ballDxZero 780 600 (by norm_num)).1 rfl,
   (C3_predictBallY_total_in_range ballRightward 780 600 (by norm_num)).2
     (by norm_num [ballRightward])⟩

/-! ## Speed-magnitude helper lemmas -/

theorem speedOf_nonneg (v : ℝ × ℝ) : 0 ≤ speedOf v :=
  Real.sqrt_nonneg _

theorem speedOf_pos (v : ℝ × ℝ) (h : v.1 ≠ 0 ∨ v.2 ≠ 0) : 0 < speedOf v := by
  apply Real.sqrt_pos.mpr
  rcases h with h | h
  · nlinarith [mul_self_pos.mpr h, mul_self_nonneg v.2]
  · nlinarith [mul_self_pos.mpr h, mul_self_nonneg v.1]

/-- Scaling a velocity by a non-negative factor scales its magnitude. -/
theorem speedOf_scale (dx dy k : ℝ) (hk : 0 ≤ k) :
    speedOf (dx * k, dy * k) = speedOf (dx, dy) * k := by
  unfold speedOf
  have h : dx * k * (dx * k) + dy * k * (dy * k) = (dx * dx + dy * dy) * (k * k) := by
    ring
  rw [h, Real.sqrt_mul (add_nonneg (mul_self_nonneg dx) (mul_self_nonneg dy)),
    Real.sqrt_mul_self hk]

/-- Magnitude of a purely horizontal velocity. -/
theorem speedOf_dy_zero (d : ℝ) : speedOf (d, 0) = |d| := by
  unfold speedOf
  simp [Real.sqrt_mul_self_eq_abs]

/-- Claim C2, amended: for every ball with a nonzero velocity vector
and a config with `0 < minBallSpeed ≤ maxBallSpeed`,
`applySpeedLimits` scales a too-slow velocity up to exactly the
minimum speed, scales a too-fast velocity down to exactly the maximum,
returns an in-range velocity unchanged, and in all cases the result's
magnitude lies in `[minBallSpeed, maxBallSpeed]` (exactly, so for
every `ε ≥ 0` it lies in the spec's `[min − ε, max + ε]`).  For the
zero velocity the original claim fails (`C2_counterexample`): the code
divides by the zero speed. -/
theorem C2_applySpeedLimits_correct (ball : BallR) (config : PhysicsConfig)
    (hv : ball.dx ≠ 0 ∨ ball.dy ≠ 0)
    (hmin : 0 < config.minBallSpeed)
    (hmm : config.minBallSpeed ≤ config.maxBallSpeed) :
    (calculateBallSpeed ball < config.minBallSpeed →
        speedOf (applySpeedLimits ball config) = config.minBallSpeed)
    ∧ (config.maxBallSpeed < calculateBallSpeed ball →
        speedOf (applySpeedLimits ball config) = config.maxBallSpeed)
    ∧ (config.minBallSpeed ≤ calculateBallSpeed ball →
        calculateBallSpeed ball ≤ config.maxBallSpeed →
        applySpeedLimits ball config = (ball.dx, ball.dy))
    ∧ config.minBallSpeed ≤ speedOf (applySpeedLimits ball config)
    ∧ speedOf (applySpeedLimits ball config) ≤ config.maxBallSpeed := by
  have hs : calculateBallSpeed ball = speedOf (ball.dx, ball.dy) := rfl
  have hpos : 0 < calculateBallSpeed ball := by rw [hs]; exact speedOf_pos _ hv
  have hne : calculateBallSpeed ball ≠ 0 := ne_of_gt hpos
  unfold applySpeedLimits
  dsimp only
  split_ifs with h1 h2
  · have heq : speedOf
        (ball.dx * (config.minBallSpeed / calculateBallSpeed ball),
         ball.dy * (config.minBallSpeed / calculateBallSpeed ball))
        = config.minBallSpeed := by
      rw [speedOf_scale _ _ _ (div_nonneg hmin.le hpos.le), ← hs, mul_comm,
        div_mul_cancel₀ _ hne]
    refine ⟨fun _ => heq, fun h2 => absurd (lt_trans h1 (lt_of_le_of_lt hmm h2)) (lt_irrefl _),
      fun hge _ => absurd (lt_of_le_of_lt hge h1) (lt_irrefl _), heq.ge, heq.le.trans hmm⟩
  · have heq : speedOf
        (ball.dx * (config.maxBallSpeed / calculateBallSpeed ball),
         ball.dy * (config.maxBallSpeed / calculateBallSpeed ball))
        = config.maxBallSpeed := by
      rw [speedOf_scale _ _ _ (div_nonneg (hmin.le.trans hmm) hpos.le), ← hs, mul_comm,
        div_mul_cancel₀ _ hne]
    refine ⟨fun hlt => absurd hlt h1, fun _ => heq,
      fun _ hle => absurd (lt_of_le_of_lt hle h2) (lt_irrefl _),
      heq.symm ▸ hmm, heq.le⟩
  · refine ⟨fun hlt => absurd hlt h1, fun hgt => absurd hgt h2, fun _ _ => rfl, ?_, ?_⟩
    · rw [← hs]; exact not_lt.mp h1
    · rw [← hs]; exact not_lt.mp h2

/-- Ball at rest (`dx = dy = 0`). -/
def zeroBallR : BallR :=
  { x := 400, y := 300, dx := 0, dy := 0, radius := 8 }

/-- Counterexample to C2 as stated: for the zero velocity the current
speed is 0, strictly below the default minimum 4, and the "scale up to
exactly the minimum" branch divides by zero — in JavaScript the
components become `NaN`, in the real model they become 0 — so the
returned magnitude is 0, not the minimum speed (and outside
`[min − ε, max + ε]` for every `ε < 4`). -/
theorem C2_counterexample :
    calculateBallSpeed zeroBallR = 0
    ∧ calculateBallSpeed zeroBallR < DEFAULT_PHYSICS_CONFIG.minBallSpeed
    ∧ applySpeedLimits zeroBallR DEFAULT_PHYSICS_CONFIG = (0, 0)
    ∧ speedOf (applySpeedLimits zeroBallR DEFAULT_PHYSICS_CONFIG) = 0
    ∧ speedOf (applySpeedLimits zeroBallR DEFAULT_PHYSICS_CONFIG)
        ≠ DEFAULT_PHYSICS_CONFIG.minBallSpeed := by
  have h0 : calculateBallSpeed zeroBallR = 0 := by
    unfold calculateBallSpeed zeroBallR
    norm_num
  have hres : applySpeedLimits zeroBallR DEFAULT_PHYSICS_CONFIG = (0, 0) := by
    unfold applySpeedLimits
    dsimp only
    rw [if_pos (by rw [h0]; norm_num [DEFAULT_PHYSICS_CONFIG])]
    show ((zeroBallR.dx * _ : ℝ), (zeroBallR.dy * _ : ℝ)) = ((0:ℝ), (0:ℝ))
    norm_num [zeroBallR]
  have hspeed : speedOf (applySpeedLimits zeroBallR DEFAULT_PHYSICS_CONFIG) = 0 := by
    rw [hres]
    unfold speedOf
    norm_num
  refine ⟨h0, by rw [h0]; norm_num [DEFAULT_PHYSICS_CONFIG], hres, hspeed, ?_⟩
  rw [hspeed]
  norm_num [DEFAULT_PHYSICS_CONFIG]

/-- The minimum-speed rescale leaves any velocity with a nonzero
horizontal component at magnitude at least 4: a too-slow velocity is
scaled to exactly 4, and otherwise it already had magnitude at
least 4. -/
theorem minSpeedFloorGL_speed (a b : ℝ) (ha : a ≠ 0) :
    4 ≤ speedOf ((minSpeedFloorGL a b).1, (minSpeedFloorGL a b).2) := by
  have hpos : 0 < Real.sqrt (a * a + b * b) := speedOf_pos (a, b) (Or.inl ha)
  unfold minSpeedFloorGL
  dsimp only
  split_ifs with h
  · dsimp only
    rw [speedOf_scale _ _ _ (div_nonneg (by norm_num) hpos.le),
      show speedOf (a, b) = Real.sqrt (a * a + b * b) from rfl,
      mul_comm, div_mul_cancel₀ _ (ne_of_gt hpos)]
  · dsimp only
    exact not_lt.mp h

/-- Claim C1, amended: after either paddle-bounce block of
`updateGame`, the ball's speed magnitude is at least the minimum speed
4 — the block rescales a too-slow velocity up to exactly 4, and the
rescale denominator is nonzero because the bounce guard requires a
nonzero horizontal velocity.  The upper bound of the original claim
does not hold: the `ball.dx *= 1.1` acceleration is never capped, so
the magnitude can exceed 15 (`C1_counterexample`). -/
theorem C1_bounce_min_speed (ball : BallR) (paddle : PaddleR)
    (chaosHit : Bool) (chaosR : ℝ) :
    (ball.dx < 0 →
        4 ≤ speedOf ((resolvePaddleBounceLeft ball paddle chaosHit chaosR).dx,
                     (resolvePaddleBounceLeft ball paddle chaosHit chaosR).dy))
    ∧ (0 < ball.dx →
        4 ≤ speedOf ((resolvePaddleBounceRight ball paddle chaosHit chaosR).dx,
                     (resolvePaddleBounceRight ball paddle chaosHit chaosR).dy)) := by
  constructor
  · intro hlt
    have hdx1 : -ball.dx * (11/10) ≠ 0 :=
      mul_ne_zero (neg_ne_zero.mpr (ne_of_lt hlt)) (by norm_num)
    unfold resolvePaddleBounceLeft
    dsimp only
    exact minSpeedFloorGL_speed _ _ hdx1
  · intro hgt
    have hdx1 : -ball.dx * (11/10) ≠ 0 :=
      mul_ne_zero (neg_ne_zero.mpr (ne_of_gt hgt)) (by norm_num)
    unfold resolvePaddleBounceRight
    dsimp only
    exact minSpeedFloorGL_speed _ _ hdx1

/-- A ball moving left at `dx = -6` (a fresh serve). -/
def leftBallR : BallR :=
  { x := 60, y := 150, dx := -6, dy := 2, radius := 8 }

/-- A ball moving right at `dx = 6`. -/
def rightBallR : BallR :=
  { x := 740, y := 150, dx := 6, dy := -2, radius := 8 }

/-- A stationary left paddle whose center is at `y = 150`. -/
def bouncePaddleR : PaddleR :=
  { x := 10, y := 100, width := 20, height := 100, speed := 8, prevY := 100, velocity := 0 }

/-- Witness for C1 (amended): both bounce resolutions on concrete
serves end at speed at least 4. -/
theorem C1_bounce_min_speed_witness :
    4 ≤ speedOf ((resolvePaddleBounceLeft leftBallR bouncePaddleR false 0).dx,
                 (resolvePaddleBounceLeft leftBallR bouncePaddleR false 0).dy)
    ∧ 4 ≤ speedOf ((resolvePaddleBounceRight rightBallR bouncePaddleR true (1/2)).dx,
                   (resolvePaddleBounceRight rightBallR bouncePaddleR true (1/2)).dy) :=
  ⟨(C1_bounce_min_speed leftBallR bouncePaddleR false 0).1 (by norm_num [leftBallR]),
   (C1_bounce_min_speed rightBallR bouncePaddleR true (1/2)).2 (by norm_num [rightBallR])⟩

/-- Witness for C2 (amended) at a concrete in-range velocity `(3, 4)`
(speed 5) under the default config. -/
theorem C2_applySpeedLimits_witness :
    (DEFAULT_PHYSICS_CONFIG.minBallSpeed ≤ calculateBallSpeed leftBallR →
        calculateBallSpeed leftBallR ≤ DEFAULT_PHYSICS_CONFIG.maxBallSpeed →
        applySpeedLimits leftBallR DEFAULT_PHYSICS_CONFIG = (leftBallR.dx, leftBallR.dy))
    ∧ DEFAULT_PHYSICS_CONFIG.minBallSpeed
        ≤ speedOf (applySpeedLimits leftBallR DEFAULT_PHYSICS_CONFIG)
    ∧ speedOf (applySpeedLimits leftBallR DEFAULT_PHYSICS_CONFIG)
        ≤ DEFAULT_PHYSICS_CONFIG.maxBallSpeed := by
  have h := C2_applySpeedLimits_correct leftBallR DEFAULT_PHYSICS_CONFIG
    (Or.inl (by norm_num [leftBallR]))
    (by norm_num [DEFAULT_PHYSICS_CONFIG])
    (by norm_num [DEFAULT_PHYSICS_CONFIG])
  exact ⟨h.2.2.1, h.2.2.2⟩

/-- Reduction of the minimum-speed rescale on a purely horizontal
velocity that is already fast enough. -/
theorem minSpeedFloorGL_horiz (q : ℝ) (hq : 4 ≤ q) :
    minSpeedFloorGL q 0 = (q, 0) := by
  unfold minSpeedFloorGL
  dsimp only
  have h0 : q * q + 0 * 0 = q * q := by ring
  rw [if_neg]
  rw [h0, Real.sqrt_mul_self (by linarith)]
  exact not_lt.mpr hq

/-- Ball on the nine-bounce rally trajectory: after nine alternating
center hits a reset serve of speed 6 has horizontal speed
`6 · 1.1⁹ ≈ 14.15`, still inside the claimed `[4, 15]` band, and is
heading left. -/
noncomputable def c1Ball : BallR :=
  { x := 60, y := 150, dx := -(6 * (11/10)^9), dy := 0, radius := 8 }

/-- Counterexample to C1 as stated: a ball whose speed `6 · 1.1⁹` still
satisfies the claimed invariant hits the left paddle dead center with
no paddle motion and no chaos, and leaves the bounce at speed
`6 · 1.1¹⁰ ≈ 15.56 > 15 = maxBallSpeed`: the bounce block enforces only
the lower speed limit, never the upper one. -/
theorem C1_counterexample :
    c1Ball.dx < 0
    ∧ 4 ≤ speedOf (c1Ball.dx, c1Ball.dy)
    ∧ speedOf (c1Ball.dx, c1Ball.dy) ≤ 15
    ∧ 15 < speedOf ((resolvePaddleBounceLeft c1Ball bouncePaddleR false 0).dx,
                    (resolvePaddleBounceLeft c1Ball bouncePaddleR false 0).dy) := by
  have habs : speedOf (c1Ball.dx, c1Ball.dy) = 6 * (11/10)^9 := by
    show speedOf (-(6 * (11/10)^9), 0) = 6 * (11/10)^9
    rw [speedOf_dy_zero, abs_neg, abs_of_nonneg (by positivity)]
  have hpair : (resolvePaddleBounceLeft c1Ball bouncePaddleR false 0).dx = 6 * (11/10)^10
      ∧ (resolvePaddleBounceLeft c1Ball bouncePaddleR false 0).dy = 0 := by
    unfold resolvePaddleBounceLeft
    dsimp only
    have hdx1 : -c1Ball.dx * (11/10) = 6 * (11/10)^10 := by
      norm_num [c1Ball]
    have hdy5 : (if (false : Bool) = true
        then max (-15) (min 15 (c1Ball.dy * (11/10) + bouncePaddleR.velocity * (4/10)
          + (c1Ball.y - (bouncePaddleR.y + bouncePaddleR.height / 2))
              / (bouncePaddleR.height / 2) * (35/10))) + ((0:ℝ) - 1/2) * 6
        else max (-15) (min 15 (c1Ball.dy * (11/10) + bouncePaddleR.velocity * (4/10)
          + (c1Ball.y - (bouncePaddleR.y + bouncePaddleR.height / 2))
              / (bouncePaddleR.height / 2) * (35/10)))) = 0 := by
      norm_num [c1Ball, bouncePaddleR]
    rw [hdx1, hdy5, minSpeedFloorGL_horiz _ (by norm_num)]
    exact ⟨rfl, rfl⟩
  refine ⟨by norm_num [c1Ball], ?_, ?_, ?_⟩
  · rw [habs]; norm_num
  · rw [habs]; norm_num
  · rw [hpair.1, hpair.2, speedOf_dy_zero, abs_of_nonneg (by positivity)]
    norm_num

/-- Claim C8: degenerate collision geometry still yields a
well-defined unit normal.  If the closest point of the rectangle to
the circle's center is the center itself (zero offset), the
circle-rect test reports a collision with the horizontal default
normal `(-1, 0)` or `(1, 0)` chosen by the side of the rectangle's
mid-x the center lies on, a unit vector; if two circles' centers
coincide (and the combined radius is positive, so a collision is
reported), the circle-circle test returns the fixed unit normal
`(1, 0)`. -/
theorem C8_degenerate_normals :
    (∀ (circle : CircleR) (rect : RectangleR),
        max rect.x (min circle.x (rect.x + rect.width)) = circle.x →
        max rect.y (min circle.y (rect.y + rect.height)) = circle.y →
        (checkCircleRectCollision circle rect).collided = true
        ∧ (checkCircleRectCollision circle rect).normal
            = some (if circle.x < rect.x + rect.width / 2 then ((-1 : ℝ), (0 : ℝ)) else (1, 0))
        ∧ (∀ n ∈ (checkCircleRectCollision circle rect).normal,
            n.1 * n.1 + n.2 * n.2 = 1))
    ∧ (∀ circle1 circle2 : CircleR,
        circle1.x = circle2.x → circle1.y = circle2.y →
        0 < circle1.radius + circle2.radius →
        (checkCircleCircleCollision circle1 circle2).collided = true
        ∧ (checkCircleCircleCollision circle1 circle2).normal = some ((1 : ℝ), (0 : ℝ))) := by
  constructor
  · intro circle rect hx hy
    have hnorm :
        (checkCircleRectCollision circle rect).collided = true
        ∧ (checkCircleRectCollision circle rect).normal
            = some (if circle.x < rect.x + rect.width / 2 then ((-1 : ℝ), (0 : ℝ)) else (1, 0)) := by
      unfold checkCircleRectCollision
      dsimp only
      rw [hx, hy, sub_self, sub_self]
      rw [if_pos (by nlinarith [mul_self_nonneg circle.radius] :
        (0:ℝ) * 0 + 0 * 0 ≤ circle.radius * circle.radius)]
      have hzero : Real.sqrt (0 * 0 + 0 * 0) = 0 := by norm_num
      rw [hzero]
      refine ⟨rfl, ?_⟩
      rw [if_neg (lt_irrefl 0)]
      by_cases hc : circle.x < rect.x + rect.width / 2 <;> simp [hc]
    refine ⟨hnorm.1, hnorm.2, ?_⟩
    intro n hn
    rw [hnorm.2] at hn
    by_cases hc : circle.x < rect.x + rect.width / 2 <;>
      simp [hc] at hn <;> rw [← hn] <;> norm_num
  · intro circle1 circle2 hx hy hr
    unfold checkCircleCircleCollision
    dsimp only
    rw [hx, hy, sub_self, sub_self]
    have hzero : Real.sqrt (0 * 0 + 0 * 0) = 0 := by norm_num
    rw [hzero]
    rw [if_pos hr]
    exact ⟨rfl, by rw [if_neg (lt_irrefl 0)]⟩

/-- A circle strictly inside the left half of a rectangle: its center
is its own closest point. -/
def insideCircle : CircleR :=
  { x := 3, y := 5, radius := 2 }

/-- The rectangle containing `insideCircle`. -/
def hostRect : RectangleR :=
  { x := 0, y := 0, width := 10, height := 10 }

/-- Two concentric circles. -/
def centerCircleSmall : CircleR :=
  { x := 1, y := 1, radius := 2 }

def centerCircleBig : CircleR :=
  { x := 1, y := 1, radius := 3 }

/-- Witness for C8: the circle centered at `(3, 5)` inside the
`10 × 10` rectangle gets the default normal `(-1, 0)` (it lies left of
mid-x 5), and two concentric circles get the default normal `(1, 0)`. -/
theorem C8_degenerate_normals_witness :
    (checkCircleRectCollision insideCircle hostRect).collided = true
    ∧ (checkCircleRectCollision insideCircle hostRect).normal = some ((-1 : ℝ), (0 : ℝ))
    ∧ (checkCircleCircleCollision centerCircleSmall centerCircleBig).collided = true
    ∧ (checkCircleCircleCollision centerCircleSmall centerCircleBig).normal
        = some ((1 : ℝ), (0 : ℝ)) := by
  have h1 := C8_degenerate_normals.1 insideCircle hostRect
    (by norm_num [insideCircle, hostRect])
    (by norm_num [insideCircle, hostRect])
  have h2 := C8_degenerate_normals.2 centerCircleSmall centerCircleBig
    (by norm_num [centerCircleSmall, centerCircleBig])
    (by norm_num [centerCircleSmall, centerCircleBig])
    (by norm_num [centerCircleSmall, centerCircleBig])
  refine ⟨h1.1, ?_, h2.1, h2.2⟩
  rw [h1.2.1, if_pos (by norm_num [insideCircle, hostRect])]

end W3bP0ng
